import Mathlib

/-!
Verification of the MCP23017 control service (mcp23017server.py).

Shallow embedding of the bus-access and command-dispatch engine:
the i2cCommunication class (bus driver), the toggle coordinator
(WaitForPinToBeReleased / PinToggler), and the mcp23017broker dispatcher
(service_commands / ProcessCommand).

Modelling conventions:
* Python unbounded nonnegative integers are Nat; results that can be -1 are Int.
* The I2C bus is a total map from (board, register) to byte values; a bus
  transaction either completes (oracle flag true) or raises at its first bus
  call (flag false), matching the try/except blocks of the source.
* Every bus-driver operation also returns the list of bus events it issued
  (mutex acquire/release, register reads and writes), so that locking
  discipline and traffic counts can be stated.  DEMO_MODE_ONLY is False in the
  source, so only the real-bus branches are modelled.
-/

namespace MCPServer

/-! Constants from the source (PROGRAM INTERNAL CONSTANTS section). -/

def MINBOARDID : Nat := 0x20
def MAXBOARDID : Nat := 0x2f
def MINPIN : Nat := 0x00
def MAXPIN : Nat := 0x10
def IODIRA : Nat := 0x00
def IODIRB : Nat := 0x01
def IOCON : Nat := 0x0A
def GPIOA : Nat := 0x12
def GPIOB : Nat := 0x13

/-- Python `v & ~(m)` for nonnegative `v` and `m`: bitwise and-not
(each result bit is `v_i && !m_i`); used for the clear-bit writes. -/
def pyAndNot (v m : Nat) : Nat := Nat.ldiff v m

/-- One event on the physical I2C bus / its mutex.  `read` and `write` record
that a register transaction was issued (a faulting transaction is still
issued on the bus before it raises). -/
inductive BusEv where
  | acquire : BusEv
  | release : BusEv
  | read : Nat → Nat → BusEv
  | write : Nat → Nat → Nat → BusEv
deriving DecidableEq, Repr

/-- State owned by the i2cCommunication instance: the managed-boards list and
the bus itself, as a total map board → register → byte. -/
structure I2CState where
  managedboards : List Nat
  bus : Nat → Nat → Nat

/-- Effect of `i2cbus.write_byte_data(b, r, v)` on the bus map. -/
def writeReg (bus : Nat → Nat → Nat) (b r v : Nat) : Nat → Nat → Nat :=
  fun b' r' => if b' = b ∧ r' = r then v else bus b' r'

/-- Per-operation hardware oracle: `initOk` is whether the one-time IOCON
configuration write of CheckInitializeBoard would succeed, `busOk` whether the
own register transaction of the operation completes without raising. -/
structure Oracle where
  initOk : Bool
  busOk : Bool

/-- i2cCommunication.CheckInitializeBoard: if the board is already in the
managed list, return True with no bus traffic; otherwise acquire the bus
mutex, write 0x02 to the IOCON register, append the board to the managed
list only when the write succeeded, release the mutex.  On a failed write
the except branch leaves state unchanged and returns False. -/
def CheckInitializeBoard (writeOk : Bool) (s : I2CState) (board_id : Nat) :
    Bool × I2CState × List BusEv :=
  if board_id ∈ s.managedboards then
    (true, s, [])
  else if writeOk then
    (true,
     { managedboards := s.managedboards ++ [board_id],
       bus := writeReg s.bus board_id IOCON 0x02 },
     [BusEv.acquire, BusEv.write board_id IOCON 0x02, BusEv.release])
  else
    (false, s, [BusEv.acquire, BusEv.write board_id IOCON 0x02, BusEv.release])

/-- i2cCommunication.ReadI2CDir: full register read at an explicit register
address, under the bus mutex; -1 on failure. -/
def ReadI2CDir (o : Oracle) (s : I2CState) (board_id port_id : Nat) :
    Int × I2CState × List BusEv :=
  let c := CheckInitializeBoard o.initOk s board_id
  if c.1 then
    if o.busOk then
      (Int.ofNat (c.2.1.bus board_id port_id), c.2.1,
       c.2.2 ++ [BusEv.acquire, BusEv.read board_id port_id, BusEv.release])
    else
      (-1, c.2.1, c.2.2 ++ [BusEv.acquire, BusEv.read board_id port_id, BusEv.release])
  else (-1, c.2.1, c.2.2)

/-- i2cCommunication.WriteI2CDir: write a full register byte under the bus
mutex, then read it back and verify; False when the verification differs or
the transaction raised. -/
def WriteI2CDir (o : Oracle) (s : I2CState) (board_id port_id newvalue : Nat) :
    Bool × I2CState × List BusEv :=
  let c := CheckInitializeBoard o.initOk s board_id
  if c.1 then
    if o.busOk then
      let s2 : I2CState := { c.2.1 with bus := writeReg c.2.1.bus board_id port_id newvalue }
      let verification := s2.bus board_id port_id
      (decide (verification = newvalue), s2,
       c.2.2 ++ [BusEv.acquire, BusEv.write board_id port_id newvalue,
                 BusEv.read board_id port_id, BusEv.release])
    else
      (false, c.2.1,
       c.2.2 ++ [BusEv.acquire, BusEv.write board_id port_id newvalue, BusEv.release])
  else (false, c.2.1, c.2.2)

/-- i2cCommunication.IdentifyBoard: set up the board if needed, then do a
best-effort read of the IODIRA register.  In the source the mutex
acquire/release around this read is commented out, so the read is issued
without holding the bus mutex. -/
def IdentifyBoard (o : Oracle) (s : I2CState) (board_id : Nat) :
    Nat × I2CState × List BusEv :=
  let c := CheckInitializeBoard o.initOk s board_id
  if c.1 then
    if o.busOk then
      (1, c.2.1, c.2.2 ++ [BusEv.read board_id IODIRA])
    else
      (0, c.2.1, c.2.2 ++ [BusEv.read board_id IODIRA])
  else (0, c.2.1, c.2.2)

/-- Port split used by every per-pin operation in the source: pins above 7 go
to the B register, the rest to the A register. -/
def pinPort (portA portB pin_nr : Nat) : Nat :=
  if pin_nr > 7 then portB else portA

/-- Bit position within the chosen register (`pin_nr % 8` in the source when
the pin is above 7, the pin itself otherwise). -/
def pinBit (pin_nr : Nat) : Nat :=
  if pin_nr > 7 then pin_nr % 8 else pin_nr

/-- Common body of GetI2CPin and GetI2CDirPin, which differ only in the pair
of register addresses: range-check the pin, set up the board if needed,
read the register under the bus mutex and extract the bit; -1 on
out-of-range pin, unmanaged board or bus fault. -/
def pinReadOp (portA portB : Nat) (o : Oracle) (s : I2CState)
    (board_id pin_nr : Nat) : Int × I2CState × List BusEv :=
  if pin_nr > 15 then (-1, s, [])
  else
    let c := CheckInitializeBoard o.initOk s board_id
    if c.1 then
      let port_id := pinPort portA portB pin_nr
      let bit := pinBit pin_nr
      if o.busOk then
        ((if c.2.1.bus board_id port_id &&& (1 <<< bit) = 0 then 0 else 1 : Int), c.2.1,
         c.2.2 ++ [BusEv.acquire, BusEv.read board_id port_id, BusEv.release])
      else
        (-1, c.2.1, c.2.2 ++ [BusEv.acquire, BusEv.read board_id port_id, BusEv.release])
    else (-1, c.2.1, c.2.2)

/-- Common body of the four per-pin write methods, which differ only in the
pair of register addresses and the bit operation: range-check the pin,
set up the board if needed, then under the bus mutex read the register,
OR in `1 << bit` (set) or AND with its complement (clear), and write the
byte back. -/
def pinWriteOp (portA portB : Nat) (isSet : Bool) (o : Oracle) (s : I2CState)
    (board_id pin_nr : Nat) : Bool × I2CState × List BusEv :=
  if pin_nr > 15 then (false, s, [])
  else
    let c := CheckInitializeBoard o.initOk s board_id
    if c.1 then
      let port_id := pinPort portA portB pin_nr
      let bit := pinBit pin_nr
      if o.busOk then
        let data_byte :=
          if isSet then c.2.1.bus board_id port_id ||| (1 <<< bit)
          else pyAndNot (c.2.1.bus board_id port_id) (1 <<< bit)
        (true, { c.2.1 with bus := writeReg c.2.1.bus board_id port_id data_byte },
         c.2.2 ++ [BusEv.acquire, BusEv.read board_id port_id,
                   BusEv.write board_id port_id data_byte, BusEv.release])
      else
        (false, c.2.1, c.2.2 ++ [BusEv.acquire, BusEv.read board_id port_id, BusEv.release])
    else (false, c.2.1, c.2.2)

/-- Common body of GetI2CDirRegister and GetI2CIORegister: registers above 0
read the B-side register, only register 0 reads the A side.  Full byte
returned; -1 on failure. -/
def regReadOp (portA portB : Nat) (o : Oracle) (s : I2CState)
    (board_id reg_nr : Nat) : Int × I2CState × List BusEv :=
  if reg_nr > 15 then (-1, s, [])
  else
    let c := CheckInitializeBoard o.initOk s board_id
    if c.1 then
      let port_id := if reg_nr > 0 then portB else portA
      if o.busOk then
        (Int.ofNat (c.2.1.bus board_id port_id), c.2.1,
         c.2.2 ++ [BusEv.acquire, BusEv.read board_id port_id, BusEv.release])
      else
        (-1, c.2.1, c.2.2 ++ [BusEv.acquire, BusEv.read board_id port_id, BusEv.release])
    else (-1, c.2.1, c.2.2)

/-- i2cCommunication.GetI2CPin (data registers GPIOA / GPIOB). -/
def GetI2CPin : Oracle → I2CState → Nat → Nat → Int × I2CState × List BusEv :=
  pinReadOp GPIOA GPIOB

/-- i2cCommunication.GetI2CDirPin (direction registers IODIRA / IODIRB). -/
def GetI2CDirPin : Oracle → I2CState → Nat → Nat → Int × I2CState × List BusEv :=
  pinReadOp IODIRA IODIRB

/-- i2cCommunication.SetI2CPin (set a data bit). -/
def SetI2CPin : Oracle → I2CState → Nat → Nat → Bool × I2CState × List BusEv :=
  pinWriteOp GPIOA GPIOB true

/-- i2cCommunication.ClearI2CPin (clear a data bit). -/
def ClearI2CPin : Oracle → I2CState → Nat → Nat → Bool × I2CState × List BusEv :=
  pinWriteOp GPIOA GPIOB false

/-- i2cCommunication.SetI2CDirPin (set a direction bit: pin becomes INPUT). -/
def SetI2CDirPin : Oracle → I2CState → Nat → Nat → Bool × I2CState × List BusEv :=
  pinWriteOp IODIRA IODIRB true

/-- i2cCommunication.ClearI2CDirPin (clear a direction bit: pin becomes
OUTPUT). -/
def ClearI2CDirPin : Oracle → I2CState → Nat → Nat → Bool × I2CState × List BusEv :=
  pinWriteOp IODIRA IODIRB false

/-- i2cCommunication.GetI2CDirRegister (full IODIRA / IODIRB byte). -/
def GetI2CDirRegister : Oracle → I2CState → Nat → Nat → Int × I2CState × List BusEv :=
  regReadOp IODIRA IODIRB

/-- i2cCommunication.GetI2CIORegister (full GPIOA / GPIOB byte). -/
def GetI2CIORegister : Oracle → I2CState → Nat → Nat → Int × I2CState × List BusEv :=
  regReadOp GPIOA GPIOB

/-- Lock-depth check over a bus-event trace: true when every read and write
event is issued while the mutex is held (depth above zero). -/
def allUnderLock : List BusEv → Nat → Bool
  | [], _ => true
  | BusEv.acquire :: r, d => allUnderLock r (d + 1)
  | BusEv.release :: r, d => allUnderLock r (d - 1)
  | BusEv.read _ _ :: r, d => decide (0 < d) && allUnderLock r d
  | BusEv.write _ _ _ :: r, d => decide (0 < d) && allUnderLock r d

/-- Number of write transactions issued in a trace. -/
def busWrites : List BusEv → Nat
  | [] => 0
  | BusEv.write _ _ _ :: r => busWrites r + 1
  | _ :: r => busWrites r

/-! Toggle coordinator: WaitForPinToBeReleased and PinToggler.  Real time is
abstracted into a schedule: one entry per iteration of the wait loop, saying
whether the toggle-set mutex acquire succeeded within its timeout and whether
the elapsed-time check after that iteration exceeds
max(COMMAND_TIMEOUT, TOGGLEDELAY). -/

/-- One iteration of the WaitForPinToBeReleased polling loop. -/
structure WaitIter where
  acquired : Bool
  timedOut : Bool
deriving DecidableEq, Repr

inductive WaitOutcome where
  | ok : WaitOutcome
  | raised : WaitOutcome
  | fuelOut : WaitOutcome
deriving DecidableEq, Repr

/-- i2cCommunication.WaitForPinToBeReleased, on the toggle lock set
(a list of (board, pin) pairs).  Each iteration: if the mutex was acquired
and the pair is absent, optionally insert it (lock_if_free) and stop
checking; then the elapsed-time check runs unconditionally and raises when
it fires - even when the pair was just inserted.  `fuelOut` marks a run
longer than the supplied schedule (in the source the loop would keep
polling until its timeout fires). -/
def WaitForPinToBeReleased (board_id pin_nr : Nat) (lock_if_free : Bool) :
    List WaitIter → List (Nat × Nat) → List (Nat × Nat) × WaitOutcome
  | [], ts => (ts, WaitOutcome.fuelOut)
  | it :: rest, ts =>
    let step : List (Nat × Nat) × Bool :=
      if it.acquired then
        if (board_id, pin_nr) ∈ ts then (ts, false)
        else if lock_if_free then ((board_id, pin_nr) :: ts, true)
        else (ts, true)
      else (ts, false)
    if it.timedOut then (step.1, WaitOutcome.raised)
    else if step.2 then (step.1, WaitOutcome.ok)
    else WaitForPinToBeReleased board_id pin_nr lock_if_free rest step.1

/-- i2cCommunication.PinToggler (the background toggle worker).  At its only
call site (ToggleI2CPin) acquire_state is left at its default False, so the
current state is assumed low and the worker sets the pin, sleeps, then
clears it.  The (board, pin) pair is removed from the toggle set only on the
path where WaitForPinToBeReleased returned normally; when the wait raised,
the exception handler just logs and the removal line is never reached. -/
def PinToggler (o : Oracle) (sched : List WaitIter) (s : I2CState)
    (ts : List (Nat × Nat)) (board_id pin_nr : Nat) (acquire_state : Bool := false) :
    I2CState × List (Nat × Nat) :=
  let c := CheckInitializeBoard o.initOk s board_id
  if c.1 then
    let w := WaitForPinToBeReleased board_id pin_nr true sched ts
    if w.2 = WaitOutcome.ok then
      let current_state : Int :=
        if acquire_state then (GetI2CPin o c.2.1 board_id pin_nr).1 else 0
      let s2 :=
        if current_state = 0 then
          let sA := (SetI2CPin o c.2.1 board_id pin_nr).2.1
          (ClearI2CPin o sA board_id pin_nr).2.1
        else if current_state = 1 then
          let sA := (ClearI2CPin o c.2.1 board_id pin_nr).2.1
          (SetI2CPin o sA board_id pin_nr).2.1
        else c.2.1
      (s2, w.1.erase (board_id, pin_nr))
    else (c.2.1, w.1)
  else (c.2.1, ts)

/-- i2cCommunication.ToggleI2CPin: validate the pin range and spawn the
PinToggler thread (which receives the board and pin); returns immediately. -/
def ToggleI2CPin (_board_id pin_nr : Nat) : Bool :=
  if pin_nr > 15 then false else true

/-! Command dispatcher: mcp23017broker.service_commands / ProcessCommand. -/

/-- Dispatcher-level action trace of ProcessCommand: toggle-lock waits,
hardware (bus driver) calls, XML persistence calls, toggle-thread spawns. -/
inductive DAct where
  | wait : Nat → Nat → DAct
  | hw : Nat → Nat → DAct
  | xmlSet : Nat → Nat → DAct
  | xmlClear : Nat → Nat → DAct
  | spawnToggle : Nat → Nat → DAct
deriving DecidableEq, Repr

/-- Python format(v, "02X"): uppercase hex digits, zero-filled to a total
width of two characters, the fill inserted between the sign and the
digits. -/
def pyFormat02X (v : Int) : String :=
  let mag : List Char := (Nat.toDigits 16 v.natAbs).map Char.toUpper
  let sign : List Char := if v < 0 then [('-')] else []
  let pad : List Char := List.replicate (2 - (sign.length + mag.length)) ('0')
  String.mk (sign ++ pad ++ mag)

/-- Command verbs (wire strings from the constants section). -/
def FINDBOARD : String := "IDENTIFY"
def GETDIRBIT : String := "GETDBIT"
def GETDIRREGISTER : String := "GETDIRREG"
def SETDIRBIT : String := "SETDBIT"
def CLEARDIRBIT : String := "CLRDBIT"
def GETIOPIN : String := "GETPIN"
def GETIOREGISTER : String := "GETIOREG"
def SETDATAPIN : String := "SETPIN"
def CLEARDATAPIN : String := "CLRPIN"
def TOGGLEPIN : String := "TOGGLE"
def DUMMY_COMMAND : String := "dummycommand"

/-- The membership set tested by service_commands. -/
def validCommands : List String :=
  [FINDBOARD, GETIOPIN, SETDIRBIT, CLEARDIRBIT, GETDIRBIT, SETDATAPIN,
   CLEARDATAPIN, GETIOREGISTER, GETDIRREGISTER, TOGGLEPIN]

/-- mcp23017broker.ProcessCommand: map one validated command to bus-driver /
toggle-coordinator calls; returns the reply payload, the new bus-driver
state and the dispatcher action trace.  `hasXml` is whether an XML
persistence handler was supplied.  The WaitForPinToBeReleased calls are the
non-raising case (the timeout exception path is modelled with the toggle
coordinator above). -/
def ProcessCommand (o : Oracle) (hasXml : Bool) (s : I2CState)
    (task : String) (board_id pin : Nat) : String × I2CState × List DAct :=
  if task = GETDIRBIT then
    let r := GetI2CDirPin o s board_id pin
    ("0x" ++ pyFormat02X r.1, r.2.1, [DAct.wait board_id pin, DAct.hw board_id pin])
  else if task = FINDBOARD then
    let r := IdentifyBoard o s board_id
    ("0x" ++ pyFormat02X (Int.ofNat r.1), r.2.1,
     [DAct.wait board_id pin, DAct.hw board_id pin])
  else if task = GETDIRREGISTER then
    let r := GetI2CDirRegister o s board_id pin
    ("0x" ++ pyFormat02X r.1, r.2.1, [DAct.wait board_id pin, DAct.hw board_id pin])
  else if task = SETDIRBIT then
    let r := SetI2CDirPin o s board_id pin
    ("", r.2.1,
     DAct.hw board_id pin ::
       (if hasXml then [DAct.wait board_id pin, DAct.xmlSet board_id pin] else []))
  else if task = CLEARDIRBIT then
    let r := ClearI2CDirPin o s board_id pin
    ("", r.2.1,
     DAct.hw board_id pin ::
       (if hasXml then [DAct.wait board_id pin, DAct.xmlClear board_id pin] else []))
  else if task = GETIOPIN then
    let r := GetI2CPin o s board_id pin
    ("0x" ++ pyFormat02X r.1, r.2.1, [DAct.wait board_id pin, DAct.hw board_id pin])
  else if task = GETIOREGISTER then
    let r := GetI2CIORegister o s board_id pin
    ("0x" ++ pyFormat02X r.1, r.2.1, [DAct.wait board_id pin, DAct.hw board_id pin])
  else if task = SETDATAPIN then
    let r := SetI2CPin o s board_id pin
    ("", r.2.1, [DAct.wait board_id pin, DAct.hw board_id pin])
  else if task = CLEARDATAPIN then
    let r := ClearI2CPin o s board_id pin
    ("", r.2.1, [DAct.wait board_id pin, DAct.hw board_id pin])
  else if task = TOGGLEPIN then
    let _ := ToggleI2CPin board_id pin
    ("", s, [DAct.spawnToggle board_id pin])
  else
    ("", s, [])

/-- Reply record written to the Responses buffer: datavalue and response
(status) fields. -/
structure CmdResponse where
  datavalue : String
  response : String
deriving DecidableEq, Repr

/-- The set_expectation error text of service_commands. -/
def setExpectation : String :=
  "Error: first command must be one of the following IDENTIFY, GETDBIT, " ++
  "GETDIRREG, SETDBIT, CLRDBIT, GETPIN, GETIOREG, SETPIN, CLRPIN, TOGGLE. "

/-- The board-range error text: bounds formatted from MINBOARDID and
MAXBOARDID - 1. -/
def boardRangeError : String := "Error: Board ID not in range [0x20, 0x2E]. "

/-- The pin/value range error text: bounds formatted from MINPIN and MAXPIN. -/
def pinRangeError : String := "Error: registervalue not in range [0x00, 0x10]. "

/-- Validation and dispatch of service_commands after token conversion
(source lines 320-371): the three checks run in order, each failing check
appending its message to the accumulated error string; with an empty error
the command is processed and the reply status is OK, otherwise the reply is
the sentinel 0x00 with the accumulated text and nothing else happens. -/
def serviceValidated (o : Oracle) (hasXml : Bool) (s : I2CState)
    (the_command : String) (the_board the_value : Nat) :
    CmdResponse × I2CState × List DAct :=
  let verbErr := if the_command ∈ validCommands then "" else setExpectation
  let boardErr :=
    if MINBOARDID ≤ the_board ∧ the_board < MAXBOARDID then "" else boardRangeError
  let pinErr := if MINPIN ≤ the_value ∧ the_value < MAXPIN then "" else pinRangeError
  let err := verbErr ++ boardErr ++ pinErr
  if err = "" then
    let r := ProcessCommand o hasXml s the_command the_board the_value
    ({ datavalue := r.1, response := "OK" }, r.2.1, r.2.2)
  else
    ({ datavalue := "0x00", response := err }, s, [])

/-- A raw command token as it comes out of GetNextCommand: either the decoded
string from the Redis record or the integer fallback used when decoding
failed. -/
inductive Tok where
  | str : String → Tok
  | num : Nat → Tok
deriving DecidableEq, Repr

def hexDigitVal (c : Char) : Option Nat :=
  if ('0') ≤ c ∧ c ≤ ('9') then some (c.toNat - ('0').toNat)
  else if ('a') ≤ c ∧ c ≤ ('f') then some (c.toNat - ('a').toNat + 10)
  else if ('A') ≤ c ∧ c ≤ ('F') then some (c.toNat - ('A').toNat + 10)
  else none

def decDigitVal (c : Char) : Option Nat :=
  if ('0') ≤ c ∧ c ≤ ('9') then some (c.toNat - ('0').toNat) else none

def parseDigits (dv : Char → Option Nat) (base : Nat) : List Char → Option Nat
  | [] => none
  | cs =>
    cs.foldl
      (fun acc c =>
        match acc, dv c with
        | some a, some d => some (a * base + d)
        | _, _ => none)
      (some 0)

/-- Python int(s, 10) on the nonnegative literals this program sends:
nonempty decimal digits, anything else raises (None). -/
def pyInt10 (s : String) : Option Nat := parseDigits decDigitVal 10 s.toList

/-- Python int(s, 16) on the nonnegative literals this program sends:
an optional leading 0x or 0X then nonempty hex digits, anything else raises
(None). -/
def pyInt16 (s : String) : Option Nat :=
  let cs := s.toList
  let body :=
    if cs.take 2 = [('0'), ('x')] ∨ cs.take 2 = [('0'), ('X')] then cs.drop 2 else cs
  parseDigits hexDigitVal 16 body

/-- Python substring membership for a single character, used for the
hex-or-decimal dispatch on command tokens. -/
def containsChar (s : String) (c : Char) : Bool := s.toList.contains c

/-- The token conversion of service_commands (source lines 309-319): strings
containing an x are parsed as base 16, other strings as base 10; integers
pass through.  None models the int() call raising ValueError - and in the
source this conversion is not inside any try block. -/
def convertTok : Tok → Option Nat
  | Tok.num n => some n
  | Tok.str s => if containsChar s ('x') then pyInt16 s else pyInt10 s

/-- mcp23017broker.service_commands on one fetched command.  The dummy
command is discarded without a response; a token whose conversion raises
escapes service_commands as an uncaught exception (Except.error), so the
serving loop dies without writing any response. -/
def service_commands (o : Oracle) (hasXml : Bool) (s : I2CState)
    (the_command : String) (boardTok valueTok : Tok) :
    Except String (Option CmdResponse × I2CState × List DAct) :=
  if the_command = DUMMY_COMMAND then Except.ok (none, s, [])
  else
    match convertTok boardTok with
    | none => Except.error "uncaught ValueError: int() of board token"
    | some b =>
      match convertTok valueTok with
      | none => Except.error "uncaught ValueError: int() of value token"
      | some v =>
        let r := serviceValidated o hasXml s the_command b v
        Except.ok (some r.1, r.2.1, r.2.2)

/-- True when some hardware call in the dispatcher trace is issued before any
toggle-lock wait, i.e. the write-class bus call can race an in-flight
toggle. -/
def hwBeforeWait : List DAct → Bool
  | [] => false
  | DAct.wait _ _ :: _ => false
  | DAct.hw _ _ :: _ => true
  | _ :: r => hwBeforeWait r

/-! Concrete states used by witnesses and counterexamples. -/

/-- A fresh bus-driver state: no managed boards, all registers read zero. -/
def freshState : I2CState := { managedboards := [], bus := fun _ _ => 0 }

/-- A state where board 0x20 is managed and every register reads its own
address, so reads of different registers are distinguishable. -/
def probeState : I2CState := { managedboards := [0x20], bus := fun _ r => r }

/-- The oracle of a run in which every hardware transaction succeeds. -/
def okOracle : Oracle := { initOk := true, busOk := true }

/-- The oracle of a run in which every hardware transaction faults. -/
def failOracle : Oracle := { initOk := false, busOk := false }

/-! Helper lemmas about board initialization and single bits. -/

/-- The state after a successful CheckInitializeBoard. -/
def initS (s : I2CState) (b : Nat) : I2CState :=
  (CheckInitializeBoard true s b).2.1

theorem check_fst_true (s : I2CState) (b : Nat) :
    (CheckInitializeBoard true s b).1 = true := by
  by_cases h : b ∈ s.managedboards <;> simp [CheckInitializeBoard, h]

theorem initS_of_managed (s : I2CState) (b : Nat) (h : b ∈ s.managedboards) :
    initS s b = s := by
  simp [initS, CheckInitializeBoard, h]

theorem initS_managed (s : I2CState) (b : Nat) : b ∈ (initS s b).managedboards := by
  by_cases h : b ∈ s.managedboards <;> simp [initS, CheckInitializeBoard, h]

theorem initS_bus_ne (s : I2CState) (b b' r : Nat) (hr : r ≠ IOCON) :
    (initS s b).bus b' r = s.bus b' r := by
  by_cases h : b ∈ s.managedboards <;>
    simp [initS, CheckInitializeBoard, h, writeReg, hr]

theorem and_shift_eq_zero_iff (x i : Nat) :
    x &&& (1 <<< i) = 0 ↔ x.testBit i = false := by
  rw [Nat.one_shiftLeft, Nat.and_two_pow]
  rcases h : x.testBit i <;>
    simp [Nat.pos_iff_ne_zero.mp (Nat.two_pow_pos i)]

theorem and_shift_congr {x y : Nat} (i : Nat) (h : x.testBit i = y.testBit i) :
    x &&& (1 <<< i) = y &&& (1 <<< i) := by
  rw [Nat.one_shiftLeft, Nat.and_two_pow, Nat.and_two_pow, h]

theorem testBit_set_self (v i : Nat) : (v ||| (1 <<< i)).testBit i = true := by
  rw [Nat.one_shiftLeft, Nat.testBit_lor, Nat.testBit_two_pow_self]
  simp

theorem testBit_set_other (v i j : Nat) (h : i ≠ j) :
    (v ||| (1 <<< i)).testBit j = v.testBit j := by
  rw [Nat.one_shiftLeft, Nat.testBit_lor, Nat.testBit_two_pow_of_ne h]
  simp

theorem testBit_clear_self (v i : Nat) : (pyAndNot v (1 <<< i)).testBit i = false := by
  rw [pyAndNot, Nat.one_shiftLeft, Nat.testBit_ldiff, Nat.testBit_two_pow_self]
  simp

theorem testBit_clear_other (v i j : Nat) (h : i ≠ j) :
    (pyAndNot v (1 <<< i)).testBit j = v.testBit j := by
  rw [pyAndNot, Nat.one_shiftLeft, Nat.testBit_ldiff, Nat.testBit_two_pow_of_ne h]
  simp

theorem pinBit_ne_of_port_eq (pa pb p q : Nat) (hab : pa ≠ pb)
    (hp : p ≤ 15) (hq : q ≤ 15) (hne : q ≠ p)
    (hport : pinPort pa pb q = pinPort pa pb p) : pinBit q ≠ pinBit p := by
  unfold pinPort at hport
  unfold pinBit
  by_cases h1 : p > 7 <;> by_cases h2 : q > 7 <;>
    simp [h1, h2] at hport ⊢ <;> omega

/-! Shape lemmas for the generic pin operations under the all-success
oracle. -/

theorem pinReadOp_fst (pa pb : Nat) (s : I2CState) (b p : Nat) (hp : p ≤ 15) :
    (pinReadOp pa pb okOracle s b p).1 =
      (if (initS s b).bus b (pinPort pa pb p) &&& (1 <<< pinBit p) = 0
       then 0 else 1 : Int) := by
  have hp15 : ¬ p > 15 := by omega
  simp [pinReadOp, hp15, okOracle, check_fst_true, initS]

theorem pinWriteOp_fst (pa pb : Nat) (isSet : Bool) (s : I2CState) (b p : Nat)
    (hp : p ≤ 15) : (pinWriteOp pa pb isSet okOracle s b p).1 = true := by
  have hp15 : ¬ p > 15 := by omega
  simp [pinWriteOp, hp15, okOracle, check_fst_true]

theorem pinWriteOp_state (pa pb : Nat) (isSet : Bool) (s : I2CState) (b p : Nat)
    (hp : p ≤ 15) :
    (pinWriteOp pa pb isSet okOracle s b p).2.1 =
      { managedboards := (initS s b).managedboards,
        bus := writeReg (initS s b).bus b (pinPort pa pb p)
                 (if isSet then (initS s b).bus b (pinPort pa pb p) ||| (1 <<< pinBit p)
                  else pyAndNot ((initS s b).bus b (pinPort pa pb p)) (1 <<< pinBit p)) } := by
  have hp15 : ¬ p > 15 := by omega
  simp [pinWriteOp, hp15, okOracle, check_fst_true, initS]

theorem pinWriteOp_read_back (pa pb : Nat) (isSet : Bool) (s : I2CState) (b p : Nat)
    (hp : p ≤ 15) :
    (pinReadOp pa pb okOracle ((pinWriteOp pa pb isSet okOracle s b p).2.1) b p).1
      = (if isSet then 1 else 0) := by
  rw [pinReadOp_fst pa pb _ b p hp]
  have hmem : b ∈ ((pinWriteOp pa pb isSet okOracle s b p).2.1).managedboards := by
    rw [pinWriteOp_state pa pb isSet s b p hp]
    exact initS_managed s b
  rw [initS_of_managed _ b hmem, pinWriteOp_state pa pb isSet s b p hp]
  simp only [writeReg]
  rw [if_pos (show True ∧ True from ⟨trivial, trivial⟩)]
  rcases isSet with _ | _ <;>
    simp [and_shift_eq_zero_iff, testBit_set_self, testBit_clear_self]

theorem pinWriteOp_bus_other (pa pb : Nat) (hab : pa ≠ pb) (isSet : Bool)
    (s : I2CState) (b p q : Nat) (hp : p ≤ 15) (hq : q ≤ 15) (hne : q ≠ p) :
    ((pinWriteOp pa pb isSet okOracle s b p).2.1).bus b (pinPort pa pb q) &&& (1 <<< pinBit q)
      = (initS s b).bus b (pinPort pa pb q) &&& (1 <<< pinBit q) := by
  rw [pinWriteOp_state pa pb isSet s b p hp]
  by_cases hpp : pinPort pa pb q = pinPort pa pb p
  · have hbit := pinBit_ne_of_port_eq pa pb p q hab hp hq hne hpp
    simp only [hpp, writeReg]
    rw [if_pos (show True ∧ True from ⟨trivial, trivial⟩)]
    apply and_shift_congr
    rcases isSet with _ | _ <;>
      simp [testBit_set_other _ _ _ (Ne.symm hbit),
            testBit_clear_other _ _ _ (Ne.symm hbit)]
  · simp [writeReg, hpp]

theorem pinWriteOp_sibling (pa pb : Nat) (hab : pa ≠ pb) (isSet : Bool)
    (s : I2CState) (b p q : Nat) (hp : p ≤ 15) (hq : q ≤ 15) (hne : q ≠ p) :
    (pinReadOp pa pb okOracle ((pinWriteOp pa pb isSet okOracle s b p).2.1) b q).1
      = (pinReadOp pa pb okOracle s b q).1 := by
  have hmem : b ∈ ((pinWriteOp pa pb isSet okOracle s b p).2.1).managedboards := by
    rw [pinWriteOp_state pa pb isSet s b p hp]
    exact initS_managed s b
  rw [pinReadOp_fst pa pb _ b q hq, pinReadOp_fst pa pb s b q hq,
      initS_of_managed _ b hmem,
      pinWriteOp_bus_other pa pb hab isSet s b p q hp hq hne]

/-! Lock-discipline lemmas for C3. -/

theorem check_trace_cases (w : Bool) (s : I2CState) (b : Nat) :
    (CheckInitializeBoard w s b).2.2 = []
  ∨ (CheckInitializeBoard w s b).2.2 =
      [BusEv.acquire, BusEv.write b IOCON 0x02, BusEv.release] := by
  by_cases h : b ∈ s.managedboards <;> rcases w with _ | _ <;>
    simp [CheckInitializeBoard, h]

theorem allUnderLock_check (w : Bool) (s : I2CState) (b : Nat) :
    allUnderLock (CheckInitializeBoard w s b).2.2 0 = true := by
  rcases check_trace_cases w s b with h | h <;> rw [h] <;> simp [allUnderLock]

theorem allUnderLock_check_append (w : Bool) (s : I2CState) (b : Nat)
    (tl : List BusEv) (h : allUnderLock tl 0 = true) :
    allUnderLock ((CheckInitializeBoard w s b).2.2 ++ tl) 0 = true := by
  rcases check_trace_cases w s b with h1 | h1 <;> rw [h1] <;> simp [allUnderLock, h]

theorem allUnderLock_pinReadOp (pa pb : Nat) (o : Oracle) (s : I2CState) (b p : Nat) :
    allUnderLock (pinReadOp pa pb o s b p).2.2 0 = true := by
  by_cases h15 : p > 15 <;> by_cases hc : (CheckInitializeBoard o.initOk s b).1 <;>
    by_cases hw : o.busOk <;>
      simp [pinReadOp, h15, hc, hw, allUnderLock, allUnderLock_check,
            allUnderLock_check_append]

theorem allUnderLock_pinWriteOp (pa pb : Nat) (isSet : Bool) (o : Oracle)
    (s : I2CState) (b p : Nat) :
    allUnderLock (pinWriteOp pa pb isSet o s b p).2.2 0 = true := by
  by_cases h15 : p > 15 <;> by_cases hc : (CheckInitializeBoard o.initOk s b).1 <;>
    by_cases hw : o.busOk <;>
      simp [pinWriteOp, h15, hc, hw, allUnderLock, allUnderLock_check,
            allUnderLock_check_append]

theorem allUnderLock_regReadOp (pa pb : Nat) (o : Oracle) (s : I2CState) (b r : Nat) :
    allUnderLock (regReadOp pa pb o s b r).2.2 0 = true := by
  by_cases h15 : r > 15 <;> by_cases hc : (CheckInitializeBoard o.initOk s b).1 <;>
    by_cases hw : o.busOk <;>
      simp [regReadOp, h15, hc, hw, allUnderLock, allUnderLock_check,
            allUnderLock_check_append]

theorem allUnderLock_ReadI2CDir (o : Oracle) (s : I2CState) (b r : Nat) :
    allUnderLock (ReadI2CDir o s b r).2.2 0 = true := by
  by_cases hc : (CheckInitializeBoard o.initOk s b).1 <;> by_cases hw : o.busOk <;>
    simp [ReadI2CDir, hc, hw, allUnderLock, allUnderLock_check,
          allUnderLock_check_append]

theorem allUnderLock_WriteI2CDir (o : Oracle) (s : I2CState) (b r v : Nat) :
    allUnderLock (WriteI2CDir o s b r v).2.2 0 = true := by
  by_cases hc : (CheckInitializeBoard o.initOk s b).1 <;> by_cases hw : o.busOk <;>
    simp [WriteI2CDir, hc, hw, allUnderLock, allUnderLock_check,
          allUnderLock_check_append]

theorem identify_trace (o : Oracle) (s : I2CState) (b : Nat) :
    (IdentifyBoard o s b).2.2 =
      (CheckInitializeBoard o.initOk s b).2.2 ++
        (if (CheckInitializeBoard o.initOk s b).1 then [BusEv.read b IODIRA] else []) := by
  by_cases hc : (CheckInitializeBoard o.initOk s b).1 <;> by_cases hw : o.busOk <;>
    simp [IdentifyBoard, hc, hw]

theorem allUnderLock_identify (o : Oracle) (s : I2CState) (b : Nat) :
    allUnderLock (IdentifyBoard o s b).2.2 0 = !(CheckInitializeBoard o.initOk s b).1 := by
  rw [identify_trace]
  rcases check_trace_cases o.initOk s b with h1 | h1 <;>
    by_cases hc : (CheckInitializeBoard o.initOk s b).1 <;>
      simp [h1, hc, allUnderLock]

/-! Claim theorems. -/

/-- C1: for every board b, pin p in [0,15] and register kind (data or
direction), a successful bit write (SetI2CPin / ClearI2CPin / SetI2CDirPin /
ClearI2CDirPin) followed by the matching bit read (GetI2CPin / GetI2CDirPin)
on the same (b, p, kind) returns the just-written value, and every other pin
q of the same board reads the value it had before the write - the write is
a read-modify-write (OR with 1 << bit to set, AND with its complement to
clear), so sibling bits of the same register are preserved. -/
theorem C1_bit_write_read_round_trip :
    ∀ (s : I2CState) (b p q : Nat), p ≤ 15 → q ≤ 15 → q ≠ p →
      ((SetI2CPin okOracle s b p).1 = true
        ∧ (GetI2CPin okOracle (SetI2CPin okOracle s b p).2.1 b p).1 = 1
        ∧ (GetI2CPin okOracle (SetI2CPin okOracle s b p).2.1 b q).1
            = (GetI2CPin okOracle s b q).1)
    ∧ ((ClearI2CPin okOracle s b p).1 = true
        ∧ (GetI2CPin okOracle (ClearI2CPin okOracle s b p).2.1 b p).1 = 0
        ∧ (GetI2CPin okOracle (ClearI2CPin okOracle s b p).2.1 b q).1
            = (GetI2CPin okOracle s b q).1)
    ∧ ((SetI2CDirPin okOracle s b p).1 = true
        ∧ (GetI2CDirPin okOracle (SetI2CDirPin okOracle s b p).2.1 b p).1 = 1
        ∧ (GetI2CDirPin okOracle (SetI2CDirPin okOracle s b p).2.1 b q).1
            = (GetI2CDirPin okOracle s b q).1)
    ∧ ((ClearI2CDirPin okOracle s b p).1 = true
        ∧ (GetI2CDirPin okOracle (ClearI2CDirPin okOracle s b p).2.1 b p).1 = 0
        ∧ (GetI2CDirPin okOracle (ClearI2CDirPin okOracle s b p).2.1 b q).1
            = (GetI2CDirPin okOracle s b q).1) := by
  intro s b p q hp hq hne
  have hd : GPIOA ≠ GPIOB := by decide
  have hr : IODIRA ≠ IODIRB := by decide
  exact ⟨⟨pinWriteOp_fst GPIOA GPIOB true s b p hp,
          by simpa using pinWriteOp_read_back GPIOA GPIOB true s b p hp,
          pinWriteOp_sibling GPIOA GPIOB hd true s b p q hp hq hne⟩,
         ⟨pinWriteOp_fst GPIOA GPIOB false s b p hp,
          by simpa using pinWriteOp_read_back GPIOA GPIOB false s b p hp,
          pinWriteOp_sibling GPIOA GPIOB hd false s b p q hp hq hne⟩,
         ⟨pinWriteOp_fst IODIRA IODIRB true s b p hp,
          by simpa using pinWriteOp_read_back IODIRA IODIRB true s b p hp,
          pinWriteOp_sibling IODIRA IODIRB hr true s b p q hp hq hne⟩,
         ⟨pinWriteOp_fst IODIRA IODIRB false s b p hp,
          by simpa using pinWriteOp_read_back IODIRA IODIRB false s b p hp,
          pinWriteOp_sibling IODIRA IODIRB hr false s b p q hp hq hne⟩⟩

/-- Witness for C1 at board 0x20, pin 3, sibling pin 10, on a fresh state. -/
theorem C1_witness :
    (3 : Nat) ≤ 15 ∧ (10 : Nat) ≤ 15 ∧ (10 : Nat) ≠ 3 ∧
    (((SetI2CPin okOracle freshState 0x20 3).1 = true
        ∧ (GetI2CPin okOracle (SetI2CPin okOracle freshState 0x20 3).2.1 0x20 3).1 = 1
        ∧ (GetI2CPin okOracle (SetI2CPin okOracle freshState 0x20 3).2.1 0x20 10).1
            = (GetI2CPin okOracle freshState 0x20 10).1)
    ∧ ((ClearI2CPin okOracle freshState 0x20 3).1 = true
        ∧ (GetI2CPin okOracle (ClearI2CPin okOracle freshState 0x20 3).2.1 0x20 3).1 = 0
        ∧ (GetI2CPin okOracle (ClearI2CPin okOracle freshState 0x20 3).2.1 0x20 10).1
            = (GetI2CPin okOracle freshState 0x20 10).1)
    ∧ ((SetI2CDirPin okOracle freshState 0x20 3).1 = true
        ∧ (GetI2CDirPin okOracle (SetI2CDirPin okOracle freshState 0x20 3).2.1 0x20 3).1 = 1
        ∧ (GetI2CDirPin okOracle (SetI2CDirPin okOracle freshState 0x20 3).2.1 0x20 10).1
            = (GetI2CDirPin okOracle freshState 0x20 10).1)
    ∧ ((ClearI2CDirPin okOracle freshState 0x20 3).1 = true
        ∧ (GetI2CDirPin okOracle (ClearI2CDirPin okOracle freshState 0x20 3).2.1 0x20 3).1 = 0
        ∧ (GetI2CDirPin okOracle (ClearI2CDirPin okOracle freshState 0x20 3).2.1 0x20 10).1
            = (GetI2CDirPin okOracle freshState 0x20 10).1)) :=
  ⟨by decide, by decide, by decide,
   C1_bit_write_read_round_trip freshState 0x20 3 10 (by decide) (by decide) (by decide)⟩

/-- C2 (failing run): starting from an empty toggle set, a schedule with a
single wait iteration in which the toggle-set mutex is acquired, the pin is
free (so the entry is inserted) and the elapsed-time check already exceeds
max(COMMAND_TIMEOUT, TOGGLEDELAY), makes WaitForPinToBeReleased raise after
inserting; PinToggler catches the exception, never runs its removal line,
and returns with (0x20, 3) still in the toggle lock set - the entry leaks,
contrary to the no-leak claim. -/
theorem C2_toggle_lock_leak :
    (WaitForPinToBeReleased 0x20 3 true [{ acquired := true, timedOut := true }] []).2
      = WaitOutcome.raised
  ∧ (WaitForPinToBeReleased 0x20 3 true [{ acquired := true, timedOut := true }] []).1
      = [(0x20, 3)]
  ∧ (PinToggler okOracle [{ acquired := true, timedOut := true }] probeState [] 0x20 3).2
      = [(0x20, 3)] :=
  ⟨rfl, rfl, rfl⟩

/-- C3 (counterexample): the best-effort register read performed by the
Identify operation is issued with the bus mutex NOT held (the acquire and
release around it are commented out in the source), so not every register
transaction runs under the lock. -/
theorem C3_counterexample :
    allUnderLock (IdentifyBoard okOracle freshState 0x20).2.2 0 = false := rfl

/-- C3 (amended): every register-level bus transaction of every bus-driver
operation is executed while holding the single bus mutex, acquired
immediately before and released immediately after - with the single
exception of the best-effort register read of IdentifyBoard, which is the
last event of the Identify trace and is issued with the mutex not held
(its lock-depth check fails exactly when the read happens, i.e. whenever
board initialization succeeded). -/
theorem C3_bus_lock_discipline :
    ∀ (o : Oracle) (s : I2CState) (b p r v : Nat),
      allUnderLock (CheckInitializeBoard o.initOk s b).2.2 0 = true
    ∧ allUnderLock (ReadI2CDir o s b r).2.2 0 = true
    ∧ allUnderLock (WriteI2CDir o s b r v).2.2 0 = true
    ∧ allUnderLock (GetI2CPin o s b p).2.2 0 = true
    ∧ allUnderLock (GetI2CDirPin o s b p).2.2 0 = true
    ∧ allUnderLock (SetI2CPin o s b p).2.2 0 = true
    ∧ allUnderLock (ClearI2CPin o s b p).2.2 0 = true
    ∧ allUnderLock (SetI2CDirPin o s b p).2.2 0 = true
    ∧ allUnderLock (ClearI2CDirPin o s b p).2.2 0 = true
    ∧ allUnderLock (GetI2CDirRegister o s b r).2.2 0 = true
    ∧ allUnderLock (GetI2CIORegister o s b r).2.2 0 = true
    ∧ (IdentifyBoard o s b).2.2
        = (CheckInitializeBoard o.initOk s b).2.2 ++
          (if (CheckInitializeBoard o.initOk s b).1 then [BusEv.read b IODIRA] else [])
    ∧ allUnderLock (IdentifyBoard o s b).2.2 0
        = !(CheckInitializeBoard o.initOk s b).1 :=
  fun o s b p r v =>
    ⟨allUnderLock_check o.initOk s b,
     allUnderLock_ReadI2CDir o s b r,
     allUnderLock_WriteI2CDir o s b r v,
     allUnderLock_pinReadOp GPIOA GPIOB o s b p,
     allUnderLock_pinReadOp IODIRA IODIRB o s b p,
     allUnderLock_pinWriteOp GPIOA GPIOB true o s b p,
     allUnderLock_pinWriteOp GPIOA GPIOB false o s b p,
     allUnderLock_pinWriteOp IODIRA IODIRB true o s b p,
     allUnderLock_pinWriteOp IODIRA IODIRB false o s b p,
     allUnderLock_regReadOp IODIRA IODIRB o s b r,
     allUnderLock_regReadOp GPIOA GPIOB o s b r,
     identify_trace o s b,
     allUnderLock_identify o s b⟩

/-- C4 (counterexample): for the SETDBIT verb the dispatcher calls the
hardware write (SetI2CDirPin) before any WaitForPinToBeReleased, so the
direction-bit write can race an in-flight toggle on the same pin. -/
theorem C4_counterexample :
    hwBeforeWait (ProcessCommand okOracle true freshState SETDIRBIT 0x20 3).2.2
      = true := rfl

/-- C4 (amended): only the data-pin write verbs SETPIN and CLRPIN wait for
the toggle-lock entry to be released before invoking the hardware write;
the direction-bit verbs SETDBIT and CLRDBIT invoke the hardware write
immediately and perform the wait only afterwards, before the persisted
direction-state update, and only when a persistence store is configured. -/
theorem C4_write_verbs_wait :
    ∀ (o : Oracle) (hx : Bool) (s : I2CState) (b p : Nat),
      hwBeforeWait (ProcessCommand o hx s SETDATAPIN b p).2.2 = false
    ∧ hwBeforeWait (ProcessCommand o hx s CLEARDATAPIN b p).2.2 = false
    ∧ hwBeforeWait (ProcessCommand o hx s SETDIRBIT b p).2.2 = true
    ∧ hwBeforeWait (ProcessCommand o hx s CLEARDIRBIT b p).2.2 = true
    ∧ (ProcessCommand o true s SETDIRBIT b p).2.2
        = [DAct.hw b p, DAct.wait b p, DAct.xmlSet b p]
    ∧ (ProcessCommand o true s CLEARDIRBIT b p).2.2
        = [DAct.hw b p, DAct.wait b p, DAct.xmlClear b p]
    ∧ (ProcessCommand o hx s SETDATAPIN b p).2.2 = [DAct.wait b p, DAct.hw b p]
    ∧ (ProcessCommand o hx s CLEARDATAPIN b p).2.2 = [DAct.wait b p, DAct.hw b p] :=
  fun _ _ _ _ _ => ⟨rfl, rfl, rfl, rfl, rfl, rfl, rfl, rfl⟩

/-- C5 (counterexample): board address 0x2F lies inside the claimed
inclusive range [MINBOARDID, MAXBOARDID] = [0x20, 0x2F], yet the command is
rejected with the board-range error and the sentinel value, because the
source tests membership in range(MINBOARDID, MAXBOARDID), which excludes
MAXBOARDID. -/
theorem C5_counterexample :
    MINBOARDID ≤ 0x2F ∧ (0x2F : Nat) ≤ MAXBOARDID ∧
    (serviceValidated okOracle false freshState GETIOPIN 0x2F 0x01).1
      = { datavalue := "0x00", response := boardRangeError } :=
  ⟨by decide, by decide, rfl⟩

/-- C5 (amended): the board address of a command is accepted exactly when
MINBOARDID <= b < MAXBOARDID, i.e. 0x20 to 0x2E inclusive - the upper bound
0x2F is excluded; for every address outside that range the command returns
the board-range error with sentinel value 0x00, the bus-driver state is
untouched and no bus or dispatcher action is taken. -/
theorem C5_board_range :
    ∀ (o : Oracle) (hx : Bool) (s : I2CState) (verb : String) (b v : Nat),
      verb ∈ validCommands → MINPIN ≤ v → v < MAXPIN →
      ((MINBOARDID ≤ b ∧ b < MAXBOARDID →
          (serviceValidated o hx s verb b v).1.response = "OK")
       ∧ (¬(MINBOARDID ≤ b ∧ b < MAXBOARDID) →
          (serviceValidated o hx s verb b v).1
              = { datavalue := "0x00", response := boardRangeError }
            ∧ (serviceValidated o hx s verb b v).2.1 = s
            ∧ (serviceValidated o hx s verb b v).2.2 = [])) := by
  intro o hx s verb b v hverb hv1 hv2
  constructor
  · intro hb
    simp [serviceValidated, hverb, hb, hv1, hv2]
  · intro hb
    simp [serviceValidated, hverb, hb, hv1, hv2, boardRangeError]

/-- Witness for C5 at the in-range board 0x21 and the out-of-range board
0x2F. -/
theorem C5_witness :
    GETIOPIN ∈ validCommands ∧ MINPIN ≤ (3 : Nat) ∧ (3 : Nat) < MAXPIN
  ∧ (serviceValidated okOracle false freshState GETIOPIN 0x21 3).1.response = "OK"
  ∧ ((serviceValidated okOracle false freshState GETIOPIN 0x2F 3).1
        = { datavalue := "0x00", response := boardRangeError }
      ∧ (serviceValidated okOracle false freshState GETIOPIN 0x2F 3).2.1 = freshState
      ∧ (serviceValidated okOracle false freshState GETIOPIN 0x2F 3).2.2 = []) :=
  ⟨by decide, by decide, by decide,
   (C5_board_range okOracle false freshState GETIOPIN 0x21 3
      (by decide) (by decide) (by decide)).1 (by decide),
   (C5_board_range okOracle false freshState GETIOPIN 0x2F 3
      (by decide) (by decide) (by decide)).2 (by decide)⟩

/-- C6: validation checks the verb, the board range and the pin/value range
in that order, appending the message of each failing check to an accumulated
error string without short-circuiting; when the accumulated error is
nonempty the reply carries the sentinel data value 0x00 together with the
accumulated text, the bus-driver state is untouched and no dispatcher
action is taken. -/
theorem C6_validation_accumulates :
    ∀ (o : Oracle) (hx : Bool) (s : I2CState) (verb : String) (b v : Nat),
      (if verb ∈ validCommands then "" else setExpectation) ++
      (if MINBOARDID ≤ b ∧ b < MAXBOARDID then "" else boardRangeError) ++
      (if MINPIN ≤ v ∧ v < MAXPIN then "" else pinRangeError) ≠ "" →
      (serviceValidated o hx s verb b v).1
          = { datavalue := "0x00",
              response :=
                (if verb ∈ validCommands then "" else setExpectation) ++
                (if MINBOARDID ≤ b ∧ b < MAXBOARDID then "" else boardRangeError) ++
                (if MINPIN ≤ v ∧ v < MAXPIN then "" else pinRangeError) }
        ∧ (serviceValidated o hx s verb b v).2.1 = s
        ∧ (serviceValidated o hx s verb b v).2.2 = [] := by
  intro o hx s verb b v h
  simp only [serviceValidated]
  rw [if_neg h]
  exact ⟨rfl, rfl, rfl⟩

/-- Witness for C6 with all three checks failing at once: unknown verb,
out-of-range board 0x2F, out-of-range value 0x10. -/
theorem C6_witness :
    ((if ("BOGUS" : String) ∈ validCommands then "" else setExpectation) ++
     (if MINBOARDID ≤ (0x2F : Nat) ∧ (0x2F : Nat) < MAXBOARDID then "" else boardRangeError) ++
     (if MINPIN ≤ (0x10 : Nat) ∧ (0x10 : Nat) < MAXPIN then "" else pinRangeError) ≠ "")
  ∧ ((serviceValidated okOracle false freshState ("BOGUS") 0x2F 0x10).1
        = { datavalue := "0x00",
            response :=
              (if ("BOGUS" : String) ∈ validCommands then "" else setExpectation) ++
              (if MINBOARDID ≤ (0x2F : Nat) ∧ (0x2F : Nat) < MAXBOARDID then ""
               else boardRangeError) ++
              (if MINPIN ≤ (0x10 : Nat) ∧ (0x10 : Nat) < MAXPIN then "" else pinRangeError) }
      ∧ (serviceValidated okOracle false freshState ("BOGUS") 0x2F 0x10).2.1 = freshState
      ∧ (serviceValidated okOracle false freshState ("BOGUS") 0x2F 0x10).2.2 = []) :=
  ⟨by decide,
   C6_validation_accumulates okOracle false freshState ("BOGUS") 0x2F 0x10 (by decide)⟩

/-- C7 (counterexample): a fully validated GETPIN command whose bus
operation fails (board initialization faults, GetI2CPin returns -1) is
answered with status OK - the failure shows up only in the data value
string 0x-1, not in the status field, contradicting the claim that bus
failures carry an error status. -/
theorem C7_counterexample :
    (GetI2CPin failOracle freshState 0x20 3).1 = -1
  ∧ (serviceValidated failOracle false freshState GETIOPIN 0x20 3).1
      = { datavalue := "0x-1", response := "OK" } :=
  ⟨rfl, rfl⟩

/-- C7 (amended): for every fully validated command the dispatcher replies
with status OK unconditionally, whatever the hardware oracle does - a
failed bus/board operation is visible only through the data value (for
example the string 0x-1 obtained by formatting the error result -1), never
through the status field. -/
theorem C7_status_always_ok :
    ∀ (o : Oracle) (hx : Bool) (s : I2CState) (verb : String) (b v : Nat),
      verb ∈ validCommands → MINBOARDID ≤ b ∧ b < MAXBOARDID →
      MINPIN ≤ v ∧ v < MAXPIN →
      (serviceValidated o hx s verb b v).1.response = "OK" := by
  intro o hx s verb b v h1 h2 h3
  simp [serviceValidated, h1, h2, h3]

/-- Witness for C7 at the all-fail oracle: validation passes and the status
is OK even though every hardware transaction faults. -/
theorem C7_witness :
    GETIOPIN ∈ validCommands
  ∧ (MINBOARDID ≤ (0x20 : Nat) ∧ (0x20 : Nat) < MAXBOARDID)
  ∧ (MINPIN ≤ (3 : Nat) ∧ (3 : Nat) < MAXPIN)
  ∧ (serviceValidated failOracle false freshState GETIOPIN 0x20 3).1.response = "OK" :=
  ⟨by decide, by decide, by decide,
   C7_status_always_ok failOracle false freshState GETIOPIN 0x20 3
     (by decide) (by decide) (by decide)⟩

/-- C8: CheckInitializeBoard is idempotent: a board already in the managed
list returns True with no bus traffic and an unchanged state; a new board
causes exactly one configuration-register write, is appended to the managed
list only when that write succeeds, and on a transport failure the call
returns False with the state unchanged, so a later call re-attempts
initialization. -/
theorem C8_board_init_idempotent :
    ∀ (w : Bool) (s : I2CState) (b : Nat),
      (b ∈ s.managedboards → CheckInitializeBoard w s b = (true, s, []))
    ∧ (b ∉ s.managedboards →
        busWrites (CheckInitializeBoard w s b).2.2 = 1
        ∧ (w = true →
            (CheckInitializeBoard w s b).1 = true
            ∧ (CheckInitializeBoard w s b).2.1.managedboards = s.managedboards ++ [b])
        ∧ (w = false →
            (CheckInitializeBoard w s b).1 = false
            ∧ (CheckInitializeBoard w s b).2.1 = s)) := by
  intro w s b
  constructor
  · intro h
    simp [CheckInitializeBoard, h]
  · intro h
    rcases w with _ | _ <;> simp [CheckInitializeBoard, h, busWrites]

/-- Witness for C8: managed board 0x20 short-circuits; unmanaged board 0x21
with a faulting bus issues one write, fails and leaves the state
unchanged. -/
theorem C8_witness :
    ((0x20 : Nat) ∈ probeState.managedboards
      ∧ CheckInitializeBoard true probeState 0x20 = (true, probeState, []))
  ∧ ((0x21 : Nat) ∉ probeState.managedboards
      ∧ busWrites (CheckInitializeBoard false probeState 0x21).2.2 = 1
      ∧ (CheckInitializeBoard false probeState 0x21).1 = false
      ∧ (CheckInitializeBoard false probeState 0x21).2.1 = probeState) :=
  ⟨⟨by decide,
    (C8_board_init_idempotent true probeState 0x20).1 (by decide)⟩,
   ⟨by decide,
    ((C8_board_init_idempotent false probeState 0x21).2 (by decide)).1,
    (((C8_board_init_idempotent false probeState 0x21).2 (by decide)).2.2 rfl).1,
    (((C8_board_init_idempotent false probeState 0x21).2 (by decide)).2.2 rfl).2⟩⟩

/-- C9 (failing run): the board token zz parses as neither hexadecimal (no
x character, so base 16 is not even attempted) nor decimal; the int()
conversion in service_commands runs outside every try block, so the
resulting ValueError escapes the command-processing loop as an uncaught
exception and no response is ever produced. -/
theorem C9_malformed_token_crash :
    convertTok (Tok.str ("zz")) = none
  ∧ service_commands okOracle false freshState GETIOPIN (Tok.str ("zz")) (Tok.str ("0x01"))
      = Except.error "uncaught ValueError: int() of board token" :=
  ⟨rfl, rfl⟩

/-- C10: for every register index accepted by validation (r in [0,15]), the
full-register read operations GetI2CDirRegister and GetI2CIORegister read
the port-A register exactly when r = 0 and the port-B register for every
r >= 1 - every non-zero accepted index selects port B. -/
theorem C10_full_register_port_selection :
    ∀ (s : I2CState) (b r : Nat), r ≤ 15 →
      (GetI2CDirRegister okOracle s b r).1
          = Int.ofNat (s.bus b (if r = 0 then IODIRA else IODIRB))
    ∧ (GetI2CIORegister okOracle s b r).1
          = Int.ofNat (s.bus b (if r = 0 then GPIOA else GPIOB)) := by
  intro s b r hr
  have h15 : ¬ r > 15 := by omega
  have key : ∀ pa pb : Nat, pa ≠ IOCON → pb ≠ IOCON →
      (regReadOp pa pb okOracle s b r).1
        = Int.ofNat (s.bus b (if r = 0 then pa else pb)) := by
    intro pa pb hpa hpb
    have hba := initS_bus_ne s b b pa hpa
    have hbb := initS_bus_ne s b b pb hpb
    simp only [initS] at hba hbb
    rcases Nat.eq_zero_or_pos r with h0 | h0
    · subst h0
      simp [regReadOp, okOracle, check_fst_true, hba]
    · have hgt : r > 0 := h0
      have hne : ¬ r = 0 := by omega
      simp [regReadOp, h15, okOracle, check_fst_true, hgt, hne, hbb]
  exact ⟨key IODIRA IODIRB (by decide) (by decide),
         key GPIOA GPIOB (by decide) (by decide)⟩

/-- Witness for C10 at register index 5: both full-register reads hit the
port-B register. -/
theorem C10_witness :
    (5 : Nat) ≤ 15
  ∧ (GetI2CDirRegister okOracle probeState 0x20 5).1
      = Int.ofNat (probeState.bus 0x20 (if 5 = 0 then IODIRA else IODIRB))
  ∧ (GetI2CIORegister okOracle probeState 0x20 5).1
      = Int.ofNat (probeState.bus 0x20 (if 5 = 0 then GPIOA else GPIOB)) :=
  ⟨by decide,
   (C10_full_register_port_selection probeState 0x20 5 (by decide)).1,
   (C10_full_register_port_selection probeState 0x20 5 (by decide)).2⟩

end MCPServer
